import Mathlib

/-!
Shallow embedding of the mobile phone simulator: the configuration store
of `config_manager.py` and the layout geometry of `main.py`
(`BezelOverlay.set_params`, `BezelOverlay.paintEvent`,
`PhoneSimulator.update_phone_style` and the persistence handlers),
together with theorems checking the specification's claims about them.
-/

namespace MobileSimulator

/-- A device profile record `{name, width, height, radius}` as stored in
`ConfigManager.DEFAULT_DEVICES` and in `custom_devices`.  Python integers
are unbounded, so the numeric fields are `Int`. -/
structure DeviceProfile where
  name : String
  width : Int
  height : Int
  radius : Int
deriving Repr, DecidableEq

/-- The constant `ConfigManager.DEFAULT_DEVICES` of `config_manager.py`. -/
def DEFAULT_DEVICES : List DeviceProfile :=
  [⟨"iPhone 17", 393, 852, 55⟩,
   ⟨"iPhone 16", 393, 852, 55⟩,
   ⟨"iPhone 13/14/15", 390, 844, 50⟩,
   ⟨"iPhone Pro Max", 430, 932, 55⟩,
   ⟨"iPhone Mini", 375, 812, 45⟩]

/-- The JSON configuration object with its keys.  `last_scale` is a Python
float used only through exact decimal values here, modelled as `ℚ`. -/
structure Config where
  last_url : String
  last_device_index : Int
  last_frame_color : String
  last_frame_border : String
  last_scale : ℚ
  custom_devices : List DeviceProfile
deriving Repr, DecidableEq

/-- The default configuration returned by `ConfigManager.load_config` when
no `config.json` exists. -/
def defaultConfig : Config :=
  { last_url := "http://localhost:5173", last_device_index := 2,
    last_frame_color := "#111", last_frame_border := "#444",
    last_scale := 7/10, custom_devices := [] }

/-- State of a `ConfigManager`: the in-memory `config` dict plus the
persisted contents of `config.json` (`none` while the file is absent).
`save_config` overwrites the file with the in-memory object. -/
structure ConfigManager where
  config : Config
  file : Option Config
deriving Repr, DecidableEq

/-- A fresh manager started without a `config.json` on disk. -/
def initManager : ConfigManager := { config := defaultConfig, file := none }

/-- Embeds `ConfigManager.save_config`: write the full in-memory
configuration to the file. -/
def save_config (cm : ConfigManager) : ConfigManager :=
  { cm with file := some cm.config }

/-- Embeds `ConfigManager.get_all_devices`: built-ins followed by the
custom devices. -/
def get_all_devices (cm : ConfigManager) : List DeviceProfile :=
  DEFAULT_DEVICES ++ cm.config.custom_devices

/-- Embeds `ConfigManager.add_custom_device`: append the record and
persist.  The Python method performs no validation of its own. -/
def add_custom_device (cm : ConfigManager) (name : String)
    (width height radius : Int) : ConfigManager :=
  save_config { cm with config := { cm.config with
    custom_devices := cm.config.custom_devices ++ [⟨name, width, height, radius⟩] } }

/-- Embeds `ConfigManager.delete_custom_device`: `list.pop(index)` guarded
by `0 <= index < len(...)`; otherwise nothing happens (no write). -/
def delete_custom_device (cm : ConfigManager) (index : Int) : ConfigManager :=
  if 0 ≤ index ∧ index < (cm.config.custom_devices.length : Int) then
    save_config { cm with config := { cm.config with
      custom_devices := cm.config.custom_devices.eraseIdx index.toNat } }
  else cm

/-- Embeds `ConfigManager.update_custom_device`: in-place replacement
guarded by `0 <= index < len(...)`; otherwise nothing happens. -/
def update_custom_device (cm : ConfigManager) (index : Int) (name : String)
    (width height radius : Int) : ConfigManager :=
  if 0 ≤ index ∧ index < (cm.config.custom_devices.length : Int) then
    save_config { cm with config := { cm.config with
      custom_devices := cm.config.custom_devices.set index.toNat
        ⟨name, width, height, radius⟩ } }
  else cm

/-- Python `int()` applied to an exact rational value: truncation toward
zero (floor for nonnegative arguments, ceiling for negative ones). -/
def pyInt (q : ℚ) : Int := if 0 ≤ q then ⌊q⌋ else ⌈q⌉

/-- State of the `BezelOverlay` widget: the fields set by `__init__` and
mutated by `set_params`. -/
structure BezelOverlay where
  radius : Int
  scale : ℚ
  base_color : String
  border_color : String
  bezel_w : Int
deriving Repr, DecidableEq

/-- Embeds the `BezelOverlay.__init__` defaults. -/
def BezelOverlay.init : BezelOverlay :=
  { radius := 50, scale := 1, base_color := "#111", border_color := "#444",
    bezel_w := 16 }

/-- Embeds `BezelOverlay.set_params`: store the arguments and recompute
`bezel_w = int(16 * scale)`. -/
def BezelOverlay.set_params (b : BezelOverlay) (radius : Int) (scale : ℚ)
    (base border : String) : BezelOverlay :=
  { b with
    radius := radius,
    scale := scale,
    base_color := base,
    border_color := border,
    bezel_w := pyInt (16 * scale) }

/-- Embeds the screen-hole geometry of `BezelOverlay.paintEvent`:
`margin = self.bezel_w; inner_r = max(0, self.radius - margin)`. -/
def BezelOverlay.hole_inner_r (b : BezelOverlay) : Int :=
  let margin := b.bezel_w
  max 0 (b.radius - margin)

/-- The geometry bundle produced by one run of
`PhoneSimulator.update_phone_style`: the scaled frame size, the bezel
width from `set_params`, the screen rectangle `(m, m, w_inner, h_inner)`,
the corner radius of the screen clipping mask, and the corner radius of
the hole painted by the bezel overlay. -/
structure PhoneGeometry where
  scaled_w : Int
  scaled_h : Int
  radius : Int
  bezel_w : Int
  bleed : Int
  m : Int
  screen_x : Int
  screen_y : Int
  w_inner : Int
  h_inner : Int
  mask_radius : Int
  hole_radius : Int
deriving Repr, DecidableEq

/-- Embeds the geometry computation of `PhoneSimulator.update_phone_style`:
`scaled_w = int(width*scale)`, `scaled_h = int(height*scale)`,
`radius = int(radius*scale)`, then `set_params` on the overlay,
`bw = bezel_overlay.bezel_w`, `bleed = 1`, `m = bw - bleed`,
`w_inner = scaled_w - 2*m`, `h_inner = scaled_h - 2*m`, screen geometry
`(m, m, w_inner, h_inner)` and mask corner radius `radius - m`.  Returns
the bundle and the updated overlay state. -/
def update_phone_style (device : DeviceProfile) (scale : ℚ)
    (base border : String) (b0 : BezelOverlay) : PhoneGeometry × BezelOverlay :=
  let scaled_w := pyInt ((device.width : ℚ) * scale)
  let scaled_h := pyInt ((device.height : ℚ) * scale)
  let radius := pyInt ((device.radius : ℚ) * scale)
  let b := b0.set_params radius scale base border
  let bw := b.bezel_w
  let bleed : Int := 1
  let m := bw - bleed
  let w_inner := scaled_w - 2 * m
  let h_inner := scaled_h - 2 * m
  ({ scaled_w := scaled_w, scaled_h := scaled_h, radius := radius,
     bezel_w := bw, bleed := bleed, m := m, screen_x := m, screen_y := m,
     w_inner := w_inner, h_inner := h_inner,
     mask_radius := radius - m, hole_radius := b.hole_inner_r }, b)

/-- The `frame_colors` preset table of `PhoneSimulator.init_ui`:
name, base color, border color. -/
def frame_colors : List (String × String × String) :=
  [("沉穩黑", "#111", "#444"), ("華麗金", "#d4af37", "#b8860b"),
   ("優雅銀", "#e5e5e5", "#a3a3a3"), ("天空藍", "#3498db", "#2980b9"),
   ("珍珠白", "#f0f0f0", "#ffffff")]

/-- Embeds `PhoneSimulator.on_frame_changed`: when the combo text is a
preset name, store its base/border colors in the config.  The handler
does not call `save_config`. -/
def on_frame_changed (cm : ConfigManager) (text : String) : ConfigManager :=
  match frame_colors.find? (fun p => p.1 == text) with
  | some p =>
      { cm with config := { cm.config with
        last_frame_color := p.2.1, last_frame_border := p.2.2 } }
  | none => cm

/-- Value of a list of ASCII digit characters read in base 10. -/
def digitsVal (ds : List Char) : Nat :=
  ds.foldl (fun n c => n * 10 + (c.toNat - 48)) 0

/-- Python `int(str)` as used on the combo and dialog fields: an optional
sign followed by at least one ASCII digit yields the integer, anything
else raises `ValueError`, modelled as `none`.  (Python also strips
surrounding whitespace and allows underscore separators; those inputs are
out of scope here.) -/
def pyParseInt (s : String) : Option Int :=
  match s.toList with
  | [] => none
  | '-' :: ds =>
    if ds ≠ [] ∧ ds.all Char.isDigit then some (-(digitsVal ds : Int)) else none
  | '+' :: ds =>
    if ds ≠ [] ∧ ds.all Char.isDigit then some (digitsVal ds : Int) else none
  | ds => if ds.all Char.isDigit then some (digitsVal ds : Int) else none

/-- Embeds `PhoneSimulator.on_scale_changed`: `"Auto"` falls back to 0.75,
any other combo text is `int(text.replace("%",""))/100`; the new scale is
stored and `save_config` is called.  Python `int()` raises on non-numeric
text, which cannot happen for the fixed combo items; the unreachable
branch is modelled with a 0 default. -/
def on_scale_changed (cm : ConfigManager) (text : String) : ConfigManager :=
  let val : ℚ := if text = "Auto" then 3/4
    else (((pyParseInt (text.replace "%" "")).getD 0 : Int) : ℚ) / 100
  save_config { cm with config := { cm.config with last_scale := val } }

/-- Embeds `PhoneSimulator.load_url`: prepend `"http://"` when the input
does not start with `"http"`, hand the result to the browser (first
component), store it as `last_url` and call `save_config`. -/
def load_url (cm : ConfigManager) (text : String) : String × ConfigManager :=
  let url := if text.startsWith "http" then text else "http://" ++ text
  (url, save_config { cm with config := { cm.config with last_url := url } })

/-- Embeds the accept branch of `PhoneSimulator.show_add_device_dialog`:
parse the three numeric fields with Python `int()`; on a `ValueError`
(any field failing to parse as an integer) nothing is mutated, otherwise
`add_custom_device` runs. -/
def show_add_device_dialog (cm : ConfigManager)
    (name wtext htext rtext : String) : ConfigManager :=
  match pyParseInt wtext, pyParseInt htext, pyParseInt rtext with
  | some w, some h, some r => add_custom_device cm name w h r
  | _, _, _ => cm

/-- The write-through invariant of the specification: the persisted file
holds exactly the in-memory configuration. -/
def WriteThrough (cm : ConfigManager) : Prop := cm.file = some cm.config

instance : DecidablePred WriteThrough := fun cm =>
  inferInstanceAs (Decidable (cm.file = some cm.config))

/-- `pyInt` agrees with the floor on nonnegative arguments. -/
lemma pyInt_of_nonneg {q : ℚ} (h : 0 ≤ q) : pyInt q = ⌊q⌋ := by
  simp [pyInt, h]

/-- C1: the claim states that the layout for profile
`{width 390, height 844, radius 50}` at scale `0.7`, bezel base width 16,
bleed 1 yields `outerHeight = 591`; the code computes
`int(844 * 0.7) = int(590.8) = 590`, so the claim is false. -/
theorem C1_counterexample :
    ((update_phone_style ⟨"iPhone 13/14/15", 390, 844, 50⟩ (7/10) "#111" "#444"
      BezelOverlay.init).1).scaled_h ≠ 591 := by
  norm_num [update_phone_style, BezelOverlay.set_params, pyInt]

/-- C1 (amended): the layout for profile `{width 390, height 844, radius 50}`
at scale `0.7` yields `outerWidth = 273`, `outerHeight = 590`,
`bezelWidth = 11`, `margin = 10`, `innerRect = (10, 10, 253, 570)`, screen
mask corner radius `25` and bezel hole corner radius `24`. -/
theorem C1_layout_scenario :
    (update_phone_style ⟨"iPhone 13/14/15", 390, 844, 50⟩ (7/10) "#111" "#444"
      BezelOverlay.init).1 =
    { scaled_w := 273, scaled_h := 590, radius := 35, bezel_w := 11,
      bleed := 1, m := 10, screen_x := 10, screen_y := 10,
      w_inner := 253, h_inner := 570, mask_radius := 25, hole_radius := 24 } := by
  norm_num [update_phone_style, BezelOverlay.set_params, BezelOverlay.hole_inner_r, pyInt]

/-- C2: the claim states `outerHeight = round(height * scale)`; at
profile height 844 and scale `0.7` the code computes `int(590.8) = 590`
while `round(590.8) = 591`, so the claim is false. -/
theorem C2_counterexample :
    ((update_phone_style ⟨"iPhone 13/14/15", 390, 844, 50⟩ (7/10) "#111" "#444"
      BezelOverlay.init).1).scaled_h ≠ round ((844 : ℚ) * (7/10)) := by
  rw [round_eq]
  norm_num [update_phone_style, BezelOverlay.set_params, pyInt]

/-- C2 (amended): for every profile with nonnegative width and height and
every nonnegative scale, the layout computation produces
`outerWidth = ⌊width * scale⌋`, `outerHeight = ⌊height * scale⌋` and
`bezelWidth = ⌊16 * scale⌋`: the scaled dimensions are rounded down
(Python `int()` truncation), not rounded to the nearest integer. -/
theorem C2_scaled_dims_floor (d : DeviceProfile) (scale : ℚ)
    (base border : String) (b0 : BezelOverlay)
    (hw : 0 ≤ d.width) (hh : 0 ≤ d.height) (hs : 0 ≤ scale) :
    ((update_phone_style d scale base border b0).1).scaled_w = ⌊(d.width : ℚ) * scale⌋ ∧
    ((update_phone_style d scale base border b0).1).scaled_h = ⌊(d.height : ℚ) * scale⌋ ∧
    ((update_phone_style d scale base border b0).1).bezel_w = ⌊(16 : ℚ) * scale⌋ := by
  have hw' : (0 : ℚ) ≤ (d.width : ℚ) := by exact_mod_cast hw
  have hh' : (0 : ℚ) ≤ (d.height : ℚ) := by exact_mod_cast hh
  refine ⟨?_, ?_, ?_⟩ <;>
    simp [update_phone_style, BezelOverlay.set_params] <;>
    rw [pyInt_of_nonneg (by positivity)]

/-- Witness for C2 (amended) at the iPhone 13/14/15 profile and scale 0.7. -/
theorem C2_scaled_dims_floor_witness :
    ((update_phone_style ⟨"iPhone 13/14/15", 390, 844, 50⟩ (7/10) "#111" "#444"
      BezelOverlay.init).1).scaled_w = ⌊((390 : Int) : ℚ) * (7/10)⌋ ∧
    ((update_phone_style ⟨"iPhone 13/14/15", 390, 844, 50⟩ (7/10) "#111" "#444"
      BezelOverlay.init).1).scaled_h = ⌊((844 : Int) : ℚ) * (7/10)⌋ ∧
    ((update_phone_style ⟨"iPhone 13/14/15", 390, 844, 50⟩ (7/10) "#111" "#444"
      BezelOverlay.init).1).bezel_w = ⌊(16 : ℚ) * (7/10)⌋ :=
  C2_scaled_dims_floor ⟨"iPhone 13/14/15", 390, 844, 50⟩ (7/10) "#111" "#444"
    BezelOverlay.init (by norm_num) (by norm_num) (by norm_num)

/-- C3: the claim states that the bezel hole corner radius equals
`max(0, round(radius * scale) - margin)` with `margin = bezelWidth - bleed`;
at scale 1 and radius 50 the code's `paintEvent` computes
`max(0, 50 - 16) = 34` (its margin is the full `bezel_w`, not
`bezel_w - bleed`), while the claimed formula gives `max(0, 50 - 15) = 35`,
so the claim is false. -/
theorem C3_counterexample :
    ((update_phone_style ⟨"iPhone 13/14/15", 390, 844, 50⟩ 1 "#111" "#444"
      BezelOverlay.init).1).hole_radius ≠
    max 0 (pyInt ((50 : ℚ) * 1) - (pyInt ((16 : ℚ) * 1) - 1)) := by
  norm_num [update_phone_style, BezelOverlay.set_params, BezelOverlay.hole_inner_r, pyInt]

/-- C3 (amended): the bezel hole corner radius equals
`max(0, int(radius * scale) - bezelWidth)` (margin is the full bezel
width, and the value is clamped, hence never negative), while the screen
clipping mask corner radius equals `int(radius * scale) - (bezelWidth - 1)`
without clamping — at profile radius 5 and scale 1 it is negative. -/
theorem C3_inner_radii (d : DeviceProfile) (scale : ℚ)
    (base border : String) (b0 : BezelOverlay) :
    let g := (update_phone_style d scale base border b0).1
    g.hole_radius = max 0 (g.radius - g.bezel_w) ∧
    0 ≤ g.hole_radius ∧
    g.mask_radius = g.radius - (g.bezel_w - 1) ∧
    ((update_phone_style ⟨"LowRadius", 390, 844, 5⟩ 1 "#111" "#444"
      BezelOverlay.init).1).mask_radius < 0 := by
  refine ⟨rfl, le_max_left 0 _, rfl, ?_⟩
  norm_num [update_phone_style, BezelOverlay.set_params, pyInt]

/-- C4: the claim states that whenever `outerWidth - 2*margin ≤ 0` the
inner rectangle's width is clamped to zero; at profile `10×10` and scale 1
the code computes `w_inner = 10 - 2*15 = -20`, which is not zero, so the
claim is false. -/
theorem C4_counterexample :
    (((update_phone_style ⟨"Degenerate", 10, 10, 5⟩ 1 "#111" "#444"
        BezelOverlay.init).1).scaled_w -
      2 * ((update_phone_style ⟨"Degenerate", 10, 10, 5⟩ 1 "#111" "#444"
        BezelOverlay.init).1).m ≤ 0) ∧
    ((update_phone_style ⟨"Degenerate", 10, 10, 5⟩ 1 "#111" "#444"
      BezelOverlay.init).1).w_inner ≠ 0 := by
  constructor <;>
    norm_num [update_phone_style, BezelOverlay.set_params, pyInt]

/-- C4 (amended): when `outerWidth - 2*margin ≤ 0` the layout computation
still completes (it is a total function) but does not clamp: the inner
width is the nonpositive value `outerWidth - 2*margin` itself, and the
inner height is likewise `outerHeight - 2*margin`, unclamped. -/
theorem C4_degenerate_not_clamped (d : DeviceProfile) (scale : ℚ)
    (base border : String) (b0 : BezelOverlay)
    (hdeg : ((update_phone_style d scale base border b0).1).scaled_w -
      2 * ((update_phone_style d scale base border b0).1).m ≤ 0) :
    let g := (update_phone_style d scale base border b0).1
    g.w_inner = g.scaled_w - 2 * g.m ∧ g.w_inner ≤ 0 ∧
    g.h_inner = g.scaled_h - 2 * g.m := by
  exact ⟨rfl, hdeg, rfl⟩

/-- Witness for C4 (amended) at a 10×10 profile and scale 1. -/
theorem C4_degenerate_not_clamped_witness :
    let g := (update_phone_style ⟨"Degenerate", 10, 10, 5⟩ 1 "#111" "#444"
      BezelOverlay.init).1
    g.w_inner = g.scaled_w - 2 * g.m ∧ g.w_inner ≤ 0 ∧
    g.h_inner = g.scaled_h - 2 * g.m :=
  C4_degenerate_not_clamped ⟨"Degenerate", 10, 10, 5⟩ 1 "#111" "#444"
    BezelOverlay.init
    (by norm_num [update_phone_style, BezelOverlay.set_params, pyInt])

/-- C5: the claim states that the full configuration is persisted after
every mutating action, including a frame color change; but
`on_frame_changed` mutates the in-memory colors without calling
`save_config`, so starting from a persisted state and selecting the gold
preset leaves the file stale. -/
theorem C5_counterexample :
    ¬ WriteThrough (on_frame_changed (save_config initManager) "華麗金") := by
  decide

/-- C5 (amended): device add, update, delete, scale change and URL load
are write-through — from a state where the file matches memory, each of
them leaves the file again matching memory — but a frame color change
mutates the in-memory colors without writing the file, which stays stale
until the next saving action. -/
theorem C5_write_through (cm : ConfigManager) (h : WriteThrough cm)
    (name : String) (width height radius : Int) (index : Int)
    (stext utext : String) :
    WriteThrough (add_custom_device cm name width height radius) ∧
    WriteThrough (update_custom_device cm index name width height radius) ∧
    WriteThrough (delete_custom_device cm index) ∧
    WriteThrough (on_scale_changed cm stext) ∧
    WriteThrough (load_url cm utext).2 := by
  refine ⟨rfl, ?_, ?_, rfl, rfl⟩
  · unfold update_custom_device
    split
    · rfl
    · exact h
  · unfold delete_custom_device
    split
    · rfl
    · exact h

/-- Witness for C5 (amended) at a freshly persisted default manager. -/
theorem C5_write_through_witness :
    WriteThrough (add_custom_device (save_config initManager) "Test" 300 600 20) ∧
    WriteThrough (update_custom_device (save_config initManager) 0 "Test" 300 600 20) ∧
    WriteThrough (delete_custom_device (save_config initManager) 0) ∧
    WriteThrough (on_scale_changed (save_config initManager) "50%") ∧
    WriteThrough (load_url (save_config initManager) "localhost").2 :=
  C5_write_through (save_config initManager) rfl "Test" 300 600 20 0 "50%" "localhost"

/-- C6: the claim states that an add with a non-positive width adds no
profile and mutates no state; but the dialog only checks that the fields
parse as integers, so `"-5"` passes and a profile with width −5 is
appended to the custom list. -/
theorem C6_counterexample :
    (show_add_device_dialog initManager "Bad" "-5" "10" "5").config.custom_devices =
      [⟨"Bad", -5, 10, 5⟩] ∧
    (show_add_device_dialog initManager "Bad" "-5" "10" "5").config.custom_devices ≠
      initManager.config.custom_devices := by
  decide

/-- C6 (amended): there is no positivity validation: even when width,
height or radius is non-positive, `add_custom_device` appends the profile
to the custom list and persists it; the dialog's only validation is that
the three fields parse as integers. -/
theorem C6_no_positivity_validation (cm : ConfigManager) (name : String)
    (width height radius : Int)
    (_hnp : width ≤ 0 ∨ height ≤ 0 ∨ radius ≤ 0) :
    (add_custom_device cm name width height radius).config.custom_devices =
      cm.config.custom_devices ++ [⟨name, width, height, radius⟩] ∧
    WriteThrough (add_custom_device cm name width height radius) :=
  ⟨rfl, rfl⟩

/-- Witness for C6 (amended) at width −5. -/
theorem C6_no_positivity_validation_witness :
    (add_custom_device initManager "Bad" (-5) 10 5).config.custom_devices =
      initManager.config.custom_devices ++ [⟨"Bad", -5, 10, 5⟩] ∧
    WriteThrough (add_custom_device initManager "Bad" (-5) 10 5) :=
  C6_no_positivity_validation initManager "Bad" (-5) 10 5 (Or.inl (by norm_num))

/-- C7: `get_all_devices` is the built-ins in their fixed order followed
by the custom profiles in insertion order, and after `add_custom_device`
the combined list is the old list with the new profile appended as its
last element, one longer. -/
theorem C7_listAll_add (cm : ConfigManager) (name : String)
    (width height radius : Int) :
    get_all_devices cm = DEFAULT_DEVICES ++ cm.config.custom_devices ∧
    get_all_devices (add_custom_device cm name width height radius) =
      get_all_devices cm ++ [⟨name, width, height, radius⟩] ∧
    (get_all_devices (add_custom_device cm name width height radius)).length =
      (get_all_devices cm).length + 1 ∧
    (get_all_devices (add_custom_device cm name width height radius)).getLast? =
      some ⟨name, width, height, radius⟩ := by
  refine ⟨rfl, ?_, ?_, ?_⟩
  · simp [get_all_devices, add_custom_device, save_config]
  · simp [get_all_devices, add_custom_device, save_config]
    omega
  · simp [get_all_devices, add_custom_device, save_config,
      ← List.append_assoc, List.getLast?_concat]

/-- C8: for every index outside the bounds of the custom list (negative
indices included), `update_custom_device` and `delete_custom_device`
return the state completely unchanged: same custom list, same persisted
file, no write. -/
theorem C8_out_of_bounds_noop (cm : ConfigManager) (index : Int)
    (name : String) (width height radius : Int)
    (hout : ¬ (0 ≤ index ∧ index < (cm.config.custom_devices.length : Int))) :
    update_custom_device cm index name width height radius = cm ∧
    delete_custom_device cm index = cm := by
  constructor
  · unfold update_custom_device
    rw [if_neg hout]
  · unfold delete_custom_device
    rw [if_neg hout]

/-- Witness for C8 at index −1 on the default manager. -/
theorem C8_out_of_bounds_noop_witness :
    update_custom_device initManager (-1) "X" 1 1 1 = initManager ∧
    delete_custom_device initManager (-1) = initManager :=
  C8_out_of_bounds_noop initManager (-1) "X" 1 1 1 (by decide)

/-- C9: for every in-bounds index, `delete_custom_device` removes exactly
the custom profile at that index (the list becomes the elements before it
followed by the elements after it), the built-ins are untouched, and for
the last index the result is the custom list without its last element. -/
theorem C9_delete_in_bounds (cm : ConfigManager) (index : Int)
    (h0 : 0 ≤ index) (hlt : index < (cm.config.custom_devices.length : Int)) :
    (delete_custom_device cm index).config.custom_devices =
      cm.config.custom_devices.take index.toNat ++
      cm.config.custom_devices.drop (index.toNat + 1) ∧
    get_all_devices (delete_custom_device cm index) =
      DEFAULT_DEVICES ++ (delete_custom_device cm index).config.custom_devices ∧
    (index = (cm.config.custom_devices.length : Int) - 1 →
      (delete_custom_device cm index).config.custom_devices =
        cm.config.custom_devices.dropLast) := by
  unfold delete_custom_device
  rw [if_pos ⟨h0, hlt⟩]
  refine ⟨List.eraseIdx_eq_take_drop_succ .., rfl, ?_⟩
  intro hidx
  show cm.config.custom_devices.eraseIdx index.toNat =
    cm.config.custom_devices.dropLast
  have hn : index.toNat = cm.config.custom_devices.length - 1 := by omega
  have hlen : 1 ≤ cm.config.custom_devices.length := by omega
  rw [hn, List.eraseIdx_eq_take_drop_succ]
  have hsucc : cm.config.custom_devices.length - 1 + 1 =
      cm.config.custom_devices.length := by omega
  rw [hsucc, List.drop_length, List.append_nil, List.dropLast_eq_take]

/-- Witness for C9: deleting index 0 from a manager with one custom
profile. -/
theorem C9_delete_in_bounds_witness :
    (delete_custom_device (add_custom_device initManager "Test" 300 600 20)
        0).config.custom_devices =
      (add_custom_device initManager "Test" 300 600 20).config.custom_devices.take
        (Int.toNat 0) ++
      (add_custom_device initManager "Test" 300 600 20).config.custom_devices.drop
        (Int.toNat 0 + 1) ∧
    get_all_devices (delete_custom_device
        (add_custom_device initManager "Test" 300 600 20) 0) =
      DEFAULT_DEVICES ++ (delete_custom_device
        (add_custom_device initManager "Test" 300 600 20) 0).config.custom_devices ∧
    ((0 : Int) = ((add_custom_device initManager "Test" 300 600
        20).config.custom_devices.length : Int) - 1 →
      (delete_custom_device (add_custom_device initManager "Test" 300 600 20)
          0).config.custom_devices =
        (add_custom_device initManager "Test" 300 600
          20).config.custom_devices.dropLast) :=
  C9_delete_in_bounds (add_custom_device initManager "Test" 300 600 20) 0
    (by decide) (by decide)

/-- C10: the URL handed to the browser is the input text with `"http://"`
prepended exactly when the text does not start with `"http"`; the same
string is stored as `last_url` and the configuration is persisted. -/
theorem C10_load_url (cm : ConfigManager) (text : String) :
    (load_url cm text).1 =
      (if text.startsWith "http" then text else "http://" ++ text) ∧
    (load_url cm text).2.config.last_url = (load_url cm text).1 ∧
    (load_url cm text).2.file = some (load_url cm text).2.config := by
  refine ⟨?_, ?_, ?_⟩ <;> simp only [load_url, save_config]

end MobileSimulator
